import Mathlib

/-!
Verification development for the Farmer-aid repository.

This file gives a shallow embedding, in Lean 4, of the rule-based
crop-suitability logic of the frontend (frontend/js/weather.js and the
district/threshold helper scripts) and of the backend proxy controllers
(api/controllers/apiController.js), and proves properties of the embedded
definitions.

Modelling conventions:
- JavaScript numbers are modelled as rationals (the code only adds,
  divides by a day count, and compares, so this is exact).
- A JavaScript value that may be null/undefined is modelled as an Option.
- An array whose entries may be null is a List (Option ℚ); the JS
  expression (arr[i] || 0) is modelled by looking up the index and
  defaulting to 0 (in JS both a missing entry and a 0/NaN entry are
  falsy and yield 0 there, which the Option model captures for the
  values the forecast payload can contain).
- The human-readable reason strings pushed by the evaluator are distinct
  per check; they are modelled as an inductive type with one constructor
  per distinct message (carrying the interpolated numbers), so list
  length and membership behave exactly as for the source's string list.
- Thrown JS exceptions are modelled with Except.  The patched
  evaluateCropSuitability calls the binding __origEvaluate which, by JS
  function-declaration hoisting (both declarations are top level in the
  same classic script, so the second overwrites the first before any
  statement runs), refers to the patched function itself; the resulting
  unbounded recursion is modelled with an explicit fuel parameter, the
  exhaustion of fuel standing for the stack-overflow abort.
-/

/-- True for a JS string regarded as truthy (non-empty). -/
def jsTruthyStr (s : String) : Bool := s ≠ ""

/-- Lowercasing as used by String.prototype.toLowerCase on the ASCII
names appearing in the tables. -/
def lcStr (s : String) : String := String.mk (s.toList.map Char.toLower)

/-- The punctuation characters stripped by the normalisation regex
in district_zones.js: period, hyphen, comma, apostrophe, slash. -/
def punctChars : List Char := ['.', '-', ',', Char.ofNat 39, '/']

/-- Substring test: needle occurs contiguously in hay
(String.prototype.includes / indexOf !== -1). -/
def strIncludes (hay needle : String) : Bool :=
  hay.toList.tails.any (fun t => needle.toList.isPrefixOf t)

/-- Split a character list at every space (String.prototype.split with
a single-space separator: consecutive separators yield empty pieces). -/
def splitSpaceAux : List Char → List Char → List (List Char)
  | [], acc => [acc.reverse]
  | c :: rest, acc =>
    if c = ' ' then acc.reverse :: splitSpaceAux rest []
    else splitSpaceAux rest (c :: acc)

/-- String.prototype.split with separator a single space. -/
def splitSpace (s : String) : List String :=
  (splitSpaceAux s.toList []).map String.mk

/-- Join words with single spaces. -/
def joinSpace : List String → String
  | [] => ""
  | [w] => w
  | w :: rest => w ++ " " ++ joinSpace rest

/-- String.prototype.trim for the space-separated names at hand. -/
def trimSpaces (s : String) : String :=
  String.mk (((s.toList.dropWhile (fun c => c = ' ')).reverse.dropWhile
    (fun c => c = ' ')).reverse)

/-- Replace punctuation by spaces, collapse runs of spaces, and trim,
mirroring key.replace(punct, space).replace(spaceRun, space).trim()
from district_zones.js (the inputs contain no other whitespace). -/
def jsSquash (s : String) : String :=
  let replaced := String.mk (s.toList.map (fun c => if punctChars.contains c then ' ' else c))
  joinSpace ((splitSpace replaced).filter (fun w => w ≠ ""))

/-- Full normalisation in district_zones.js lookups: lowercase then squash. -/
def jsNormalize (s : String) : String := jsSquash (lcStr s)

/-- A per-crop threshold record, { idealMax: [lo, hi], idealMin: [lo, hi],
minSoilTemp, minTotalRain5d } from weather.js. -/
structure ThresholdSet where
  idealMaxLo : ℚ
  idealMaxHi : ℚ
  idealMinLo : ℚ
  idealMinHi : ℚ
  minSoilTemp : ℚ
  minTotalRain5d : ℚ
deriving DecidableEq, Repr

/-- The generic per-crop threshold table of getCropThresholds
(weather.js lines 989-1024), keyed on the lowercased crop name. -/
def getCropThresholds (crop : String) : Option ThresholdSet :=
  let c := lcStr crop
  if c = "wheat" then some ⟨15, 25, 5, 15, 5, 0⟩
  else if c = "rice" then some ⟨25, 32, 20, 26, 18, 20⟩
  else if c = "cotton" then some ⟨28, 36, 18, 26, 16, 0⟩
  else if c = "sugarcane" then some ⟨25, 34, 18, 26, 18, 10⟩
  else if c = "maize" then some ⟨20, 30, 12, 22, 12, 5⟩
  else none

/-- Daily block of the forecast payload.  A missing array behaves as []
after the source's (daily.x || []) defaulting, so the temperature lists
are plain lists; precipitation_sum and rain_sum keep their presence
because (daily.precipitation_sum || daily.rain_sum || []) distinguishes
a present empty array (truthy in JS) from an absent one. -/
structure WeatherDaily where
  time : List String
  temperature_2m_max : List (Option ℚ)
  temperature_2m_min : List (Option ℚ)
  precipitation_sum : Option (List (Option ℚ))
  rain_sum : Option (List (Option ℚ))
deriving Repr

/-- Hourly block: soil_temperature_0cm samples, none for a non-number entry. -/
structure WeatherHourly where
  soil_temperature_0cm : List (Option ℚ)
deriving Repr

/-- The forecast payload consumed by the evaluator. -/
structure WeatherData where
  daily : WeatherDaily
  hourly : WeatherHourly
deriving Repr

/-- The rain array selected by daily.precipitation_sum || daily.rain_sum || []. -/
def rainArrOf (w : WeatherData) : List (Option ℚ) :=
  match w.daily.precipitation_sum with
  | some l => l
  | none => w.daily.rain_sum.getD []

/-- Window size: min(5, daily.time.length). -/
def windowDays (w : WeatherData) : ℕ := min 5 w.daily.time.length

/-- The JS read (arr[i] || 0): out-of-range and null entries give 0. -/
def jsIdx (l : List (Option ℚ)) (i : ℕ) : ℚ := ((l.get? i).join).getD 0

/-- Sum of (arr[i] || 0) for i < days. -/
def sumWindow (l : List (Option ℚ)) (days : ℕ) : ℚ :=
  (List.range days).foldl (fun acc i => acc + jsIdx l i) 0

/-- Average max temperature over the window. -/
def avgMaxOf (w : WeatherData) : ℚ :=
  sumWindow w.daily.temperature_2m_max (windowDays w) / (windowDays w)

/-- Average min temperature over the window. -/
def avgMinOf (w : WeatherData) : ℚ :=
  sumWindow w.daily.temperature_2m_min (windowDays w) / (windowDays w)

/-- Total rain over the window. -/
def totalRainOf (w : WeatherData) : ℚ :=
  sumWindow (rainArrOf w) (windowDays w)

/-- Average soil temperature: only when the hourly soil array covers
days*24 samples; averages the numeric entries among the first days*24,
none when there are no numeric entries (or insufficient coverage). -/
def avgSoilOf (w : WeatherData) : Option ℚ :=
  let days := windowDays w
  let soil := w.hourly.soil_temperature_0cm
  if soil.length ≥ days * 24 then
    let samples := (List.range (days * 24)).filterMap (fun i => (soil.get? i).join)
    if samples.length > 0 then some (samples.sum / samples.length) else none
  else none

/-- The metrics record returned with every evaluation. -/
structure Metrics where
  avgMaxTemp : ℚ
  avgMinTemp : ℚ
  totalRain5d : ℚ
  avgSoilTemp : Option ℚ
deriving DecidableEq, Repr

/-- The metrics the evaluator computes from a payload. -/
def metricsOf (w : WeatherData) : Metrics :=
  ⟨avgMaxOf w, avgMinOf w, totalRainOf w, avgSoilOf w⟩

/-- One constructor per distinct reason string pushed by the evaluator,
carrying the numbers interpolated into the message. -/
inductive Reason where
  | maxAbove (avgMax : ℚ)
  | maxBelow (avgMax : ℚ)
  | minAbove (avgMin : ℚ)
  | minBelow (avgMin : ℚ)
  | soilLow (avgSoil minSoil : ℚ)
  | rainLow (total : ℚ) (days : ℕ)
  | extremeHeat
  | extremeCold
  | hotDry
deriving DecidableEq, Repr

/-- Status classification from the reason count (weather.js lines
1402-1405 and 1070, 1092-1095). -/
def statusOfCount (n : ℕ) : String :=
  if n = 0 then "Suitable" else if n = 1 then "Marginal" else "Unsuitable"

/-- The reasons accumulated by the threshold comparisons (lines
1388-1400 of the patched evaluator, identical to 1074-1089 of the
original): each violated bound appends one reason, the soil and rain
checks being guarded by the truthiness (non-zeroness) of the
corresponding threshold field. -/
def checkReasons (thr : ThresholdSet) (avgMax avgMin totalRain : ℚ)
    (avgSoil : Option ℚ) (days : ℕ) : List Reason :=
  (if avgMax > thr.idealMaxHi then [Reason.maxAbove avgMax] else []) ++
  (if avgMax < thr.idealMaxLo then [Reason.maxBelow avgMax] else []) ++
  (if avgMin > thr.idealMinHi then [Reason.minAbove avgMin] else []) ++
  (if avgMin < thr.idealMinLo then [Reason.minBelow avgMin] else []) ++
  (if thr.minSoilTemp ≠ 0 then
    match avgSoil with
    | some s => if s < thr.minSoilTemp then [Reason.soilLow s thr.minSoilTemp] else []
    | none => []
   else []) ++
  (if thr.minTotalRain5d ≠ 0 ∧ totalRain < thr.minTotalRain5d then
    [Reason.rainLow totalRain days] else [])

/-- Result record.  The original evaluator returns no zone/isCustom
fields (modelled none), the patched one sets both. -/
structure SuitabilityResult where
  status : String
  reasons : List Reason
  metrics : Metrics
  zone : Option String
  isCustom : Option Bool
deriving DecidableEq, Repr

/-- How an evaluation can abort: the explicit insufficient-data throw,
the stack overflow from the self-referential fallback, and the
ReferenceError from the undeclared totalRain5d identifier at line 1069. -/
inductive EvalError where
  | insufficientData
  | stackOverflow
  | referenceError
deriving DecidableEq, Repr

example : statusOfCount 0 = "Suitable" := by decide
example : statusOfCount 1 = "Marginal" := by decide
example : statusOfCount 2 = "Unsuitable" := by decide

/-- Association-list maps modelling plain JS objects with string keys:
insertion order is preserved (all keys here are non-integer strings, so
for..in enumerates them in insertion order) and assigning to an existing
key updates it in place. -/
abbrev StrMap := List (String × String)

/-- obj[k] = v on an insertion-ordered object. -/
def mapSet (m : StrMap) (k v : String) : StrMap :=
  if m.any (fun p => p.1 == k) then m.map (fun p => if p.1 == k then (k, v) else p)
  else m ++ [(k, v)]

/-- obj[k] lookup, none when the key is absent. -/
def mapGet (m : StrMap) (k : String) : Option String :=
  (m.find? (fun p => p.1 == k)).map (fun p => p.2)

/-- PROVINCE_DISTRICTS from district_zones.js, in source order. -/
def PROVINCE_DISTRICTS : List (String × List String) :=
  [("Punjab",
    ["Attock", "Bahawalnagar", "Bahawalpur", "Barki", "Bhakkar", "Chakwal", "Chiniot",
     "Dera Ghazi Khan", "Faisalabad", "Gujranwala", "Gujrat", "Hafizabad", "Jhang",
     "Jhelum", "Khanewal", "Kasur", "Khanewal", "Khushab", "Lahore", "Layyah",
     "Lodhran", "Mandi Bahauddin", "Mianwali", "Multan", "Muzaffargarh",
     "Nankana Sahib", "Narowal", "Okara", "Pakpattan", "Rahim Yar Khan", "Rajanpur",
     "Rawalpindi", "Sahiwal", "Sargodha", "Sheikhupura", "Sialkot", "Toba Tek Singh",
     "Vehari", "Kot Addu", "Taunsa", "Liaqatpur"]),
   ("Sindh",
    ["Badin", "Dadu", "Ghotki", "Hyderabad", "Jacobabad", "Jamshoro",
     "Kamber Shahdadkot", "Karachi", "Kashmore", "Khairpur", "Larkana", "Mirpur Khas",
     "Naushahro Feroze", "Qambar Shahdadkot", "Sanghar", "Shaheed Benazirabad",
     "Shikarpur", "Sukkur", "Thatta", "Tharparkar", "Tando Allahyar",
     "Tando Muhammad Khan", "Umerkot", "Keamari", "Malir"]),
   ("Khyber Pakhtunkhwa",
    ["Abbottabad", "Bannu", "Battagram", "Bajaur", "Charsadda", "Chitral",
     "Dera Ismail Khan", "Hangu", "Haripur", "Karak", "Kohat", "Lakki Marwat",
     "Lower Dir", "Lower Kohistan", "Mansehra", "Mardan", "Nowshera", "Peshawar",
     "Shangla", "Swabi", "Swat", "Tank", "Torghar", "Upper Dir", "Upper Kohistan",
     "Khyber", "Kurram", "Orakzai", "Mohmand"]),
   ("Balochistan",
    ["Awaran", "Barkhan", "Chagai", "Dera Bugti", "Gwadar", "Harnai", "Jafarabad",
     "Jhal Magsi", "Kachhi", "Kalat", "Kech", "Kharan", "Khuzdar", "Killa Saifullah",
     "Kohlu", "Lasbela", "Loralai", "Mastung", "Nushki", "Panjgur", "Pishin",
     "Pishin", "Quetta", "Sibi", "Washuk", "Zhob", "Ziarat", "Sohbatpur"]),
   ("Gilgit-Baltistan",
    ["Gilgit", "Skardu", "Hunza", "Nagar", "Ghizer", "Ghanche", "Astore", "Diamer",
     "Shigar", "Kharmang"]),
   ("Azad Jammu and Kashmir",
    ["Muzaffarabad", "Mirpur", "Kotli", "Poonch", "Bhimber", "Bagh", "Neelum",
     "Hattian Bala", "Sudhanoti", "Haveli"]),
   ("Islamabad", ["Islamabad"])]

/-- ALIASES from district_zones.js, in source order. -/
def ALIASES : StrMap :=
  [("dg khan", "Dera Ghazi Khan"),
   ("kot addu", "Kot Addu"),
   ("kot-addu", "Kot Addu"),
   ("kot addu city", "Kot Addu"),
   ("shaheed benazirabad", "Shaheed Benazirabad"),
   ("nawabshah", "Shaheed Benazirabad"),
   ("keamari", "Karachi"),
   ("karachi east", "Karachi"),
   ("karachi west", "Karachi"),
   ("karachi south", "Karachi"),
   ("karachi central", "Karachi"),
   ("multan city", "Multan"),
   ("muzaffar garh", "Muzaffargarh"),
   ("muzaffargarh", "Muzaffargarh"),
   ("sanawan", "Kot Addu"),
   ("sanawan uttar pradesh", "Kot Addu"),
   ("sanawan india", "Kot Addu"),
   ("sanawan uttar pradesh india", "Kot Addu")]

/-- addDistrictToMap: register a district key (lowercased) and, when the
punctuation-stripped form differs, that simplified key too, into both
the zone map and the canonical-name map. -/
def addDistrictToMap (maps : StrMap × StrMap) (district province : String) :
    StrMap × StrMap :=
  if district = "" then maps
  else
    let key := lcStr district
    let m1 := (mapSet maps.1 key province, mapSet maps.2 key district)
    let simple := jsSquash key
    if simple ≠ "" ∧ simple ≠ key then
      (mapSet m1.1 simple province, mapSet m1.2 simple district)
    else m1

/-- DISTRICT_ZONE_MAP and DISTRICT_NAME_MAP as built at load time: all
province district lists in order, then the aliases, each alias mapped to
the province found for its canonical district (falling back to a
province list scan, then to the canonical name itself). -/
def districtMaps : StrMap × StrMap :=
  let base := PROVINCE_DISTRICTS.foldl
    (fun acc pd => pd.2.foldl (fun a d => addDistrictToMap a d pd.1) acc) ([], [])
  ALIASES.foldl
    (fun acc al =>
      let prov :=
        match mapGet acc.1 (lcStr al.2) with
        | some p => p
        | none =>
          match PROVINCE_DISTRICTS.find? (fun pd => pd.2.contains al.2) with
          | some pd => pd.1
          | none => al.2
      addDistrictToMap acc al.1 prov)
    base

/-- The DISTRICT_ZONE_MAP object. -/
def DISTRICT_ZONE_MAP : StrMap := districtMaps.1

/-- The DISTRICT_NAME_MAP object. -/
def DISTRICT_NAME_MAP : StrMap := districtMaps.2

/-- getZoneFromDistrictMap from district_zones.js: normalise, check the
alias table (returning the province containing the canonical district),
then an exact district key, then each token, then the first map key that
is a substring of the normalised input. -/
def getZoneFromDistrictMap (name : String) : Option String :=
  if name = "" then none
  else
    let norm := jsNormalize name
    match ALIASES.find? (fun al => al.1 == norm) with
    | some al =>
      match PROVINCE_DISTRICTS.find? (fun pd => pd.2.contains al.2) with
      | some pd => some pd.1
      | none => some al.2
    | none =>
      match mapGet DISTRICT_ZONE_MAP norm with
      | some z => some z
      | none =>
        match (splitSpace norm).findSome? (fun t => mapGet DISTRICT_ZONE_MAP t) with
        | some z => some z
        | none =>
          (DISTRICT_ZONE_MAP.find? (fun p => strIncludes norm p.1)).map (fun p => p.2)

/-- getDistrictFromName from district_zones.js: same lookup ladder over
the canonical-name map, aliases first. -/
def getDistrictFromName (name : String) : Option String :=
  if name = "" then none
  else
    let norm := jsNormalize name
    match ALIASES.find? (fun al => al.1 == norm) with
    | some al => some al.2
    | none =>
      match mapGet DISTRICT_NAME_MAP norm with
      | some d => some d
      | none =>
        match (splitSpace norm).findSome? (fun t => mapGet DISTRICT_NAME_MAP t) with
        | some d => some d
        | none =>
          (DISTRICT_NAME_MAP.find? (fun p => strIncludes norm p.1)).map (fun p => p.2)

/-- detectZoneFromCoords (weather.js lines 1222-1235): bounding boxes in
order Punjab, Sindh, KPK, Balochistan, Gilgit, then the hard-coded
default Punjab. -/
def detectZoneFromCoords (lat lon : ℚ) : String :=
  if lat ≥ 27.5 ∧ lat ≤ 33.5 ∧ lon ≥ 69.5 ∧ lon ≤ 75.5 then "Punjab"
  else if lat ≥ 23.5 ∧ lat ≤ 28.0 ∧ lon ≥ 67.0 ∧ lon ≤ 71.5 then "Sindh"
  else if lat ≥ 31.0 ∧ lat ≤ 36.5 ∧ lon ≥ 69.0 ∧ lon ≤ 74.5 then "KPK"
  else if lat ≥ 24.0 ∧ lat ≤ 30.5 ∧ lon ≥ 61.0 ∧ lon ≤ 70.5 then "Balochistan"
  else if lat > 35 then "Gilgit"
  else "Punjab"

/-- The punjabCities list of detectZoneFromName, in source order
(duplicates included). -/
def punjabCities : List String :=
  ["lahore", "faisalabad", "rawalpindi", "gujranwala", "sialkot", "sargodha",
   "multan", "bahawalpur", "dera ghazi khan", "dg khan", "dgkhan", "muzaffargarh",
   "muzaffar garh", "muzaffar", "muzaffargar", "rahim yar khan", "ry khan",
   "rahim yar", "kasur", "sheikhupura", "okara", "sahiwal", "pakpattan",
   "toba tek singh", "toba", "jhang", "chiniot", "hafizabad", "gujrat",
   "mandi bahauddin", "narowal", "khushab", "bhakkar", "mianwali", "bahawalnagar",
   "lodhran", "vehari", "daska", "kot addu", "kot-addu", "kot addu", "sanawan",
   "sangla hill", "nankana", "nankana sahib", "chiaot", "pakpattan", "chishtian",
   "shujabad", "jalalpur peerzaman", "dera", "dera sahib"]

/-- detectZoneFromName (weather.js lines 1240-1269): lowercase the name,
consult the district map, then scan the Punjab city substrings (every
hit returns Punjab), then the province-name substrings. -/
def detectZoneFromName (name : String) : Option String :=
  if name = "" then none
  else
    let n := lcStr name
    match getZoneFromDistrictMap n with
    | some z => some z
    | none =>
      if punjabCities.any (fun c => strIncludes n c) then some "Punjab"
      else if strIncludes n "punjab" then some "Punjab"
      else if strIncludes n "sindh" then some "Sindh"
      else if strIncludes n "khyber" ∨ strIncludes n "kpk" ∨ strIncludes n "pakhtunkhwa" then
        some "KPK"
      else if strIncludes n "baloch" ∨ strIncludes n "balochistan" then some "Balochistan"
      else if strIncludes n "gilgit" ∨ strIncludes n "skardu" ∨ strIncludes n "hunza" then
        some "Gilgit"
      else none

/-- PUNJAB_DISTRICT_THRESHOLDS from punjab_thresholds.js, in source
order: district name to (crop key to thresholds). -/
def PUNJAB_DISTRICT_THRESHOLDS : List (String × List (String × ThresholdSet)) :=
  [("Kot Addu",
    [("wheat", ⟨12, 26, 4, 14, 5, 0⟩), ("rice", ⟨28, 35, 22, 30, 20, 25⟩),
     ("cotton", ⟨30, 38, 20, 30, 18, 0⟩), ("sugarcane", ⟨26, 36, 20, 30, 20, 15⟩),
     ("maize", ⟨22, 34, 14, 26, 14, 5⟩)]),
   ("Multan",
    [("wheat", ⟨14, 28, 6, 16, 6, 0⟩), ("rice", ⟨29, 36, 23, 31, 20, 30⟩),
     ("cotton", ⟨32, 40, 22, 32, 18, 0⟩), ("sugarcane", ⟨28, 38, 22, 32, 22, 15⟩),
     ("maize", ⟨24, 36, 16, 28, 14, 5⟩)]),
   ("Muzaffargarh",
    [("wheat", ⟨13, 27, 5, 15, 5, 0⟩), ("rice", ⟨28, 35, 22, 30, 20, 25⟩),
     ("cotton", ⟨31, 39, 21, 31, 18, 0⟩), ("sugarcane", ⟨27, 36, 20, 30, 20, 12⟩),
     ("maize", ⟨23, 34, 15, 26, 14, 5⟩)]),
   ("Lahore",
    [("wheat", ⟨11, 24, 3, 14, 4, 0⟩), ("rice", ⟨26, 33, 21, 28, 18, 20⟩),
     ("cotton", ⟨28, 36, 18, 28, 16, 0⟩), ("sugarcane", ⟨25, 34, 18, 28, 18, 12⟩),
     ("maize", ⟨20, 30, 12, 22, 12, 5⟩)]),
   ("Faisalabad",
    [("wheat", ⟨12, 25, 4, 15, 5, 0⟩), ("rice", ⟨27, 34, 21, 29, 19, 22⟩),
     ("cotton", ⟨29, 37, 19, 29, 17, 0⟩), ("sugarcane", ⟨26, 35, 19, 29, 19, 12⟩),
     ("maize", ⟨21, 32, 13, 24, 13, 5⟩)]),
   ("Rawalpindi",
    [("wheat", ⟨10, 22, 2, 12, 4, 0⟩), ("rice", ⟨24, 31, 19, 26, 17, 18⟩),
     ("cotton", ⟨26, 34, 16, 26, 15, 0⟩), ("sugarcane", ⟨24, 33, 17, 27, 17, 10⟩),
     ("maize", ⟨19, 29, 11, 21, 12, 5⟩)]),
   ("Dera Ghazi Khan",
    [("wheat", ⟨14, 30, 6, 18, 6, 0⟩), ("rice", ⟨30, 36, 24, 32, 21, 30⟩),
     ("cotton", ⟨33, 41, 23, 33, 19, 0⟩), ("sugarcane", ⟨29, 38, 23, 33, 22, 15⟩),
     ("maize", ⟨25, 37, 17, 29, 15, 5⟩)]),
   ("Rahim Yar Khan",
    [("wheat", ⟨15, 31, 7, 19, 6, 0⟩), ("rice", ⟨30, 37, 24, 33, 22, 30⟩),
     ("cotton", ⟨33, 41, 23, 33, 19, 0⟩), ("sugarcane", ⟨29, 38, 23, 33, 22, 15⟩),
     ("maize", ⟨25, 37, 17, 29, 15, 5⟩)]),
   ("Sargodha",
    [("wheat", ⟨11, 24, 3, 14, 4, 0⟩), ("rice", ⟨26, 33, 20, 28, 18, 20⟩),
     ("cotton", ⟨28, 36, 18, 28, 16, 0⟩), ("sugarcane", ⟨25, 34, 18, 28, 18, 12⟩),
     ("maize", ⟨20, 31, 12, 23, 12, 5⟩)]),
   ("Gujranwala",
    [("wheat", ⟨12, 25, 4, 15, 5, 0⟩), ("rice", ⟨27, 34, 21, 29, 19, 22⟩),
     ("cotton", ⟨29, 37, 19, 29, 17, 0⟩), ("sugarcane", ⟨26, 35, 19, 29, 19, 12⟩),
     ("maize", ⟨21, 32, 13, 24, 13, 5⟩)])]

/-- getPunjabDistrictThreshold (punjab_thresholds.js): trim the district
name, lowercase the crop, double table lookup, null on any miss. -/
def getPunjabDistrictThreshold (districtName crop : String) : Option ThresholdSet :=
  if districtName = "" ∨ crop = "" then none
  else
    let dk := trimSpaces districtName
    let c := lcStr crop
    match PUNJAB_DISTRICT_THRESHOLDS.find? (fun e => e.1 == dk) with
    | none => none
    | some e => (e.2.find? (fun ct => ct.1 == c)).map (fun ct => ct.2)

/-- The zoneDefaults table inside getEffectiveThresholds (weather.js
lines 1300-1309): only Punjab is populated. -/
def zoneDefaults : List (String × List (String × ThresholdSet)) :=
  [("Punjab",
    [("wheat", ⟨12, 24, 4, 14, 5, 0⟩), ("rice", ⟨28, 34, 22, 28, 20, 25⟩),
     ("cotton", ⟨30, 38, 20, 28, 18, 0⟩), ("sugarcane", ⟨26, 34, 20, 28, 20, 15⟩),
     ("maize", ⟨22, 32, 14, 24, 14, 5⟩)])]

/-- Lookup in the zoneDefaults table for a zone and a lowercased crop. -/
def zoneDefaultLookup (zone croplc : String) : Option ThresholdSet :=
  match zoneDefaults.find? (fun e => e.1 == zone) with
  | none => none
  | some e => (e.2.find? (fun ct => ct.1 == croplc)).map (fun ct => ct.2)

/-- The persisted custom threshold store (localStorage contents), an
insertion-ordered object keyed by zone-or-default::crop-lowercased. -/
abbrev CustomStore := List (String × ThresholdSet)

/-- Lookup in the custom store. -/
def customGet (m : CustomStore) (k : String) : Option ThresholdSet :=
  (m.find? (fun p => p.1 == k)).map (fun p => p.2)

/-- The custom-store key built by getEffectiveThresholds and by the
patched evaluator: (zone || default)::crop.toLowerCase(). -/
def customKeyOf (zone crop : String) : String :=
  (if zone = "" then "default" else zone) ++ "::" ++ lcStr crop

/-- The district tier of getEffectiveThresholds (weather.js lines
1311-1318): the Punjab district table is consulted only when the zone
is exactly Punjab and a truthy district is at hand. -/
def districtTier (crop zone : String) (district : Option String) :
    Option ThresholdSet :=
  if zone = "Punjab" then
    match district with
    | some d => if d ≠ "" then getPunjabDistrictThreshold d crop else none
    | none => none
  else none

/-- getEffectiveThresholds (weather.js lines 1295-1322): the custom
override for zone::crop first, then the Punjab district tier, then the
zone defaults, then the generic per-crop table. -/
def getEffectiveThresholds (custom : CustomStore) (crop zone : String)
    (district : Option String) : Option ThresholdSet :=
  match customGet custom (customKeyOf zone crop) with
  | some t => some t
  | none =>
    match districtTier crop zone district with
    | some t => some t
    | none =>
      match zoneDefaultLookup zone (lcStr crop) with
      | some t => some t
      | none => getCropThresholds crop

/-- The lastQuery global: name plus coordinates of the last lookup. -/
structure LastQuery where
  name : String
  lat : Option ℚ
  lon : Option ℚ

/-- Ambient state read by the patched evaluator: the zoneSelect element
value (none when the element is absent, in which case the code uses
auto), the lastQuery global, and the custom threshold store. -/
structure EvalCtx where
  zoneSelectValue : Option String
  lastQuery : Option LastQuery
  custom : CustomStore

/-- Zone and district detection of the patched evaluator (weather.js
lines 1327-1347): start from the zoneSelect value (auto when the
element is absent); when it is auto, try the location name (updating
the zone only on a hit, and recording the canonical district whenever a
truthy name is present), then fall back to coordinate detection when the
zone is still auto and both coordinates are truthy (nonzero). -/
def resolveZoneDistrict (ctx : EvalCtx) : String × Option String :=
  let zone0 := ctx.zoneSelectValue.getD "auto"
  if zone0 = "auto" then
    let nameOpt : Option String :=
      ctx.lastQuery.bind (fun q => if q.name ≠ "" then some q.name else none)
    let zone1 : String :=
      match nameOpt with
      | some nm => (detectZoneFromName nm).getD "auto"
      | none => "auto"
    let district : Option String := nameOpt.bind getDistrictFromName
    if zone1 = "auto" then
      match ctx.lastQuery with
      | some q =>
        match q.lat, q.lon with
        | some la, some lo =>
          if la ≠ 0 ∧ lo ≠ 0 then (detectZoneFromCoords la lo, district)
          else ("auto", district)
        | _, _ => ("auto", district)
      | none => ("auto", district)
    else (zone1, district)
  else (zone0, none)

/-- The original evaluateCropSuitability (weather.js lines 1030-1098).
When the crop has no generic thresholds it runs the crop-agnostic
check; its hot-and-dry branch (line 1069) reads the undeclared
identifier totalRain5d, so whenever avgMax exceeds 35 the function
aborts with a ReferenceError instead of returning. -/
def origEvaluate (w : WeatherData) (crop : String) :
    Except EvalError SuitabilityResult :=
  let days := windowDays w
  if days = 0 then .error .insufficientData
  else
    let avgMax := avgMaxOf w
    let avgMin := avgMinOf w
    let totalRain := totalRainOf w
    let avgSoil := avgSoilOf w
    let metrics : Metrics := ⟨avgMax, avgMin, totalRain, avgSoil⟩
    match getCropThresholds crop with
    | none =>
      if avgMax > 35 then .error .referenceError
      else
        let reasons :=
          (if avgMax > 40 then [Reason.extremeHeat] else []) ++
          (if avgMin < -5 then [Reason.extremeCold] else [])
        .ok ⟨statusOfCount reasons.length, reasons, metrics, none, none⟩
    | some thr =>
      let reasons := checkReasons thr avgMax avgMin totalRain avgSoil days
      .ok ⟨statusOfCount reasons.length, reasons, metrics, none, none⟩

/-- The patched evaluateCropSuitability (weather.js lines 1326-1408),
the binding every caller sees.  Because function declarations hoist,
the __origEvaluate constant (line 1325) is initialised from the already
patched binding, so the no-thresholds fallback calls the function
itself with unchanged arguments; the fuel parameter models the call
stack, fuel exhaustion standing for the stack-overflow abort. -/
def evaluateCropSuitability : ℕ → EvalCtx → WeatherData → String →
    Except EvalError SuitabilityResult
  | 0, _, _, _ => .error .stackOverflow
  | fuel + 1, ctx, w, crop =>
    let zd := resolveZoneDistrict ctx
    let zone := zd.1
    let district := zd.2
    let isCustom := (customGet ctx.custom (customKeyOf zone crop)).isSome
    match getEffectiveThresholds ctx.custom crop zone district with
    | none => evaluateCropSuitability fuel ctx w crop
    | some thr =>
      let days := windowDays w
      if days = 0 then .error .insufficientData
      else
        let avgMax := avgMaxOf w
        let avgMin := avgMinOf w
        let totalRain := totalRainOf w
        let avgSoil := avgSoilOf w
        let metrics : Metrics := ⟨avgMax, avgMin, totalRain, avgSoil⟩
        let reasons := checkReasons thr avgMax avgMin totalRain avgSoil days
        .ok ⟨statusOfCount reasons.length, reasons, metrics, some zone, some isCustom⟩

/-- HTTP response produced by the backend controllers: a status code and
the JSON body (the body serialisation is abstracted to a string). -/
structure HttpResponse where
  status : ℕ
  body : String
deriving DecidableEq, Repr

/-- The geocode controller (apiController.js lines 11-25).  The name
query parameter is Option String (none when absent); a missing or empty
name is falsy and yields the 400 response before any upstream call; the
upstream axios call is abstracted as an Except, its failure caught and
mapped to the 500 response. -/
def geocodeHandler (name : Option String) (upstream : Except String String) :
    HttpResponse :=
  match name with
  | none => ⟨400, "Missing `name` query parameter"⟩
  | some s =>
    if s = "" then ⟨400, "Missing `name` query parameter"⟩
    else
      match upstream with
      | .ok data => ⟨200, data⟩
      | .error _ => ⟨500, "Geocoding failed"⟩

/-- The weather controller (apiController.js lines 27-59): 400 when
latitude or longitude is missing or empty, 500 when the upstream
forecast call fails, otherwise the upstream JSON verbatim. -/
def weatherHandler (latitude longitude : Option String)
    (upstream : Except String String) : HttpResponse :=
  let missing : Bool :=
    match latitude, longitude with
    | some la, some lo => la = "" ∨ lo = ""
    | _, _ => true
  if missing then ⟨400, "Missing latitude or longitude"⟩
  else
    match upstream with
    | .ok data => ⟨200, data⟩
    | .error _ => ⟨500, "Weather fetch failed"⟩

/-- Context with zoneSelect on auto, no previous query, empty custom
store: the zone stays auto and only the generic threshold tier can fire. -/
def genericCtx : EvalCtx := ⟨some "auto", none, []⟩

/-- Five-day payload matching the second end-to-end scenario of the
spec: max 18,20,19,21,18 and min 8,9,7,10,8, zero rainfall, no soil
data (averages 19.2 and 8.4, inside the generic wheat bounds). -/
def wSuit : WeatherData :=
  ⟨⟨["d1", "d2", "d3", "d4", "d5"],
    [some 18, some 20, some 19, some 21, some 18],
    [some 8, some 9, some 7, some 10, some 8],
    some [some 0, some 0, some 0, some 0, some 0], none⟩, ⟨[]⟩⟩

/-- Five-day payload matching the first end-to-end scenario of the
spec: max 30,29,31,30,32 and min 20,19,21,20,22, zero rainfall
(averages 30.4 and 20.4, violating both generic wheat bounds). -/
def wHot : WeatherData :=
  ⟨⟨["d1", "d2", "d3", "d4", "d5"],
    [some 30, some 29, some 31, some 30, some 32],
    [some 20, some 19, some 21, some 20, some 22],
    some [some 0, some 0, some 0, some 0, some 0], none⟩, ⟨[]⟩⟩

/-- Payload whose daily time array is empty. -/
def wEmptyTime : WeatherData := ⟨⟨[], [], [], none, none⟩, ⟨[]⟩⟩

/-- Payload with five timestamps but empty temperature and rain arrays. -/
def wTimeOnly : WeatherData := ⟨⟨["d1", "d2", "d3", "d4", "d5"], [], [], none, none⟩, ⟨[]⟩⟩

/-- True exactly when the evaluation returned a result (did not throw). -/
def evalReturns (e : Except EvalError SuitabilityResult) : Bool :=
  match e with
  | .ok _ => true
  | .error _ => false

/-- The metrics of a returned result, none when the evaluation threw. -/
def evalMetrics (e : Except EvalError SuitabilityResult) : Option Metrics :=
  match e with
  | .ok r => some r.metrics
  | .error _ => none

/-- The result of evaluating the hot scenario payload for wheat. -/
def rHot : SuitabilityResult :=
  ⟨"Unsuitable", [Reason.maxAbove (152 / 5), Reason.minAbove (102 / 5)],
   ⟨152 / 5, 102 / 5, 0, none⟩, some "auto", some false⟩

/-- A custom store holding an override for Punjab wheat. -/
def customPW : CustomStore := [("Punjab::wheat", ⟨1, 2, 3, 4, 5, 6⟩)]

/-- Context whose custom store overrides auto wheat with a threshold
set whose minSoilTemp and minTotalRain5d are both zero. -/
def zeroCtx : EvalCtx := ⟨some "auto", none, [("auto::wheat", ⟨15, 25, 5, 15, 0, 0⟩)]⟩

/-- The result of evaluating the hot scenario payload for wheat under
the zero-guard custom override. -/
def rHotCustom : SuitabilityResult :=
  ⟨"Unsuitable", [Reason.maxAbove (152 / 5), Reason.minAbove (102 / 5)],
   ⟨152 / 5, 102 / 5, 0, none⟩, some "auto", some true⟩

attribute [local semireducible] Rat.add Rat.mul Rat.inv Rat.sub Rat.ofScientific

/-- Decidable equality of evaluation outcomes, used to evaluate the
model at concrete inputs. -/
instance {ε α : Type} [DecidableEq ε] [DecidableEq α] : DecidableEq (Except ε α) :=
  fun x y =>
    match x, y with
    | .ok a, .ok b =>
      if h : a = b then .isTrue (congrArg Except.ok h)
      else .isFalse (fun he => h (Except.ok.inj he))
    | .error a, .error b =>
      if h : a = b then .isTrue (congrArg Except.error h)
      else .isFalse (fun he => h (Except.error.inj he))
    | .ok _, .error _ => .isFalse (fun he => Except.noConfusion he)
    | .error _, .ok _ => .isFalse (fun he => Except.noConfusion he)

/-- Unfolding of the patched evaluator at positive fuel. -/
lemma evalSucc (fuel : ℕ) (ctx : EvalCtx) (w : WeatherData) (crop : String) :
    evaluateCropSuitability (fuel + 1) ctx w crop =
      match getEffectiveThresholds ctx.custom crop (resolveZoneDistrict ctx).1
          (resolveZoneDistrict ctx).2 with
      | none => evaluateCropSuitability fuel ctx w crop
      | some thr =>
        if windowDays w = 0 then .error .insufficientData
        else
          .ok ⟨statusOfCount (checkReasons thr (avgMaxOf w) (avgMinOf w) (totalRainOf w)
                  (avgSoilOf w) (windowDays w)).length,
               checkReasons thr (avgMaxOf w) (avgMinOf w) (totalRainOf w)
                  (avgSoilOf w) (windowDays w),
               metricsOf w, some (resolveZoneDistrict ctx).1,
               some (customGet ctx.custom
                  (customKeyOf (resolveZoneDistrict ctx).1 crop)).isSome⟩ := rfl

/-- When no threshold tier matches, the self-referential fallback
recurses with unchanged arguments until the stack is exhausted. -/
lemma eval_noThresholds (ctx : EvalCtx) (w : WeatherData) (crop : String)
    (h : getEffectiveThresholds ctx.custom crop (resolveZoneDistrict ctx).1
        (resolveZoneDistrict ctx).2 = none) :
    ∀ fuel, evaluateCropSuitability fuel ctx w crop = .error .stackOverflow := by
  intro fuel
  induction fuel with
  | zero => rfl
  | succ n ih => rw [evalSucc, h]; exact ih

/-- C1: for every evaluation performed by evaluateCropSuitability that
returns a result, the returned status is statusOfCount of the number of
accumulated reasons: 0 gives Suitable, 1 gives Marginal, 2 or more give
Unsuitable. -/
theorem C1_status_from_reason_count (fuel : ℕ) (ctx : EvalCtx) (w : WeatherData)
    (crop : String) (r : SuitabilityResult)
    (h : evaluateCropSuitability fuel ctx w crop = .ok r) :
    r.status = statusOfCount r.reasons.length := by
  induction fuel with
  | zero => exact absurd h (by simp [evaluateCropSuitability])
  | succ n ih =>
    rw [evalSucc] at h
    cases heff : getEffectiveThresholds ctx.custom crop (resolveZoneDistrict ctx).1
        (resolveZoneDistrict ctx).2 with
    | none => rw [heff] at h; exact ih h
    | some thr =>
      rw [heff] at h
      simp only [] at h
      split at h
      · exact absurd h (by simp)
      · injection h with h2
        subst h2
        rfl

/-- Witness for C1: the first end-to-end scenario of the spec (wheat
against averages 30.4 and 20.4) yields two reasons and Unsuitable. -/
theorem C1_status_from_reason_count_witness :
    evaluateCropSuitability 1 genericCtx wHot "wheat" = .ok rHot ∧
      rHot.status = statusOfCount rHot.reasons.length :=
  ⟨by decide, C1_status_from_reason_count 1 genericCtx wHot "wheat" rHot (by decide)⟩

/-- C2: threshold resolution order is custom override, then district
table, then zone table, then generic table; in particular a custom entry
under zone::crop-lowercased wins even when a built-in district entry
(such as Kot Addu wheat) exists. -/
theorem C2_resolution_order :
    (∀ (custom : CustomStore) (crop zone : String) (district : Option String)
        (t : ThresholdSet),
        customGet custom (customKeyOf zone crop) = some t →
        getEffectiveThresholds custom crop zone district = some t)
    ∧ (∀ (custom : CustomStore) (crop zone : String) (district : Option String)
        (t : ThresholdSet),
        customGet custom (customKeyOf zone crop) = none →
        districtTier crop zone district = some t →
        getEffectiveThresholds custom crop zone district = some t)
    ∧ (∀ (custom : CustomStore) (crop zone : String) (district : Option String)
        (t : ThresholdSet),
        customGet custom (customKeyOf zone crop) = none →
        districtTier crop zone district = none →
        zoneDefaultLookup zone (lcStr crop) = some t →
        getEffectiveThresholds custom crop zone district = some t)
    ∧ (∀ (custom : CustomStore) (crop zone : String) (district : Option String),
        customGet custom (customKeyOf zone crop) = none →
        districtTier crop zone district = none →
        zoneDefaultLookup zone (lcStr crop) = none →
        getEffectiveThresholds custom crop zone district = getCropThresholds crop)
    ∧ getPunjabDistrictThreshold "Kot Addu" "wheat" = some ⟨12, 26, 4, 14, 5, 0⟩
    ∧ districtTier "wheat" "Punjab" (some "Kot Addu") = some ⟨12, 26, 4, 14, 5, 0⟩ := by
  refine ⟨?_, ?_, ?_, ?_, by decide, by decide⟩
  · intro custom crop zone district t h
    simp [getEffectiveThresholds, h]
  · intro custom crop zone district t h1 h2
    simp [getEffectiveThresholds, h1, h2]
  · intro custom crop zone district t h1 h2 h3
    simp [getEffectiveThresholds, h1, h2, h3]
  · intro custom crop zone district h1 h2 h3
    simp [getEffectiveThresholds, h1, h2, h3]

/-- Witness for C2 at concrete inputs: the override beats the Kot Addu
district entry, the district entry beats the Punjab zone entry, the
zone entry beats the generic entry, and the generic entry is the last
resort. -/
theorem C2_resolution_order_witness :
    getEffectiveThresholds customPW "wheat" "Punjab" (some "Kot Addu") =
      some ⟨1, 2, 3, 4, 5, 6⟩
    ∧ getEffectiveThresholds [] "wheat" "Punjab" (some "Kot Addu") =
      some ⟨12, 26, 4, 14, 5, 0⟩
    ∧ getEffectiveThresholds [] "wheat" "Punjab" none = some ⟨12, 24, 4, 14, 5, 0⟩
    ∧ getEffectiveThresholds [] "wheat" "auto" none = some ⟨15, 25, 5, 15, 5, 0⟩ := by
  refine ⟨?_, ?_, ?_, ?_⟩
  · exact C2_resolution_order.1 customPW "wheat" "Punjab" (some "Kot Addu") _ (by decide)
  · exact C2_resolution_order.2.1 [] "wheat" "Punjab" (some "Kot Addu") _ (by decide)
      (by decide)
  · exact C2_resolution_order.2.2.1 [] "wheat" "Punjab" none _ (by decide) (by decide)
      (by decide)
  · rw [C2_resolution_order.2.2.2.1 [] "wheat" "auto" none (by decide) (by decide)
      (by decide)]
    decide

/-- The window is empty exactly when the daily time array is empty. -/
lemma windowDays_eq_zero_iff (w : WeatherData) : windowDays w = 0 ↔ w.daily.time = [] := by
  simp [windowDays, Nat.min_eq_zero_iff, List.length_eq_zero]

/-- C3 (amended): when the crop's effective thresholds resolve, an
empty daily time array makes evaluateCropSuitability throw the
insufficient-data error and a non-empty one makes it return a result;
for crops whose thresholds do not resolve the call instead aborts by
exhausting the stack on the self-referential fallback, so a payload
with at least 1 day never produces the insufficient-data error. -/
theorem C3_insufficient_data :
    (∀ (fuel : ℕ) (ctx : EvalCtx) (w : WeatherData) (crop : String) (thr : ThresholdSet),
        getEffectiveThresholds ctx.custom crop (resolveZoneDistrict ctx).1
          (resolveZoneDistrict ctx).2 = some thr →
        w.daily.time = [] →
        evaluateCropSuitability (fuel + 1) ctx w crop = .error .insufficientData)
    ∧ (∀ (fuel : ℕ) (ctx : EvalCtx) (w : WeatherData) (crop : String) (thr : ThresholdSet),
        getEffectiveThresholds ctx.custom crop (resolveZoneDistrict ctx).1
          (resolveZoneDistrict ctx).2 = some thr →
        w.daily.time ≠ [] →
        evalReturns (evaluateCropSuitability (fuel + 1) ctx w crop) = true)
    ∧ (∀ (fuel : ℕ) (ctx : EvalCtx) (w : WeatherData) (crop : String),
        w.daily.time ≠ [] →
        evaluateCropSuitability fuel ctx w crop ≠ .error .insufficientData) := by
  refine ⟨?_, ?_, ?_⟩
  · intro fuel ctx w crop thr heff htime
    rw [evalSucc, heff]
    simp only []
    rw [if_pos ((windowDays_eq_zero_iff w).mpr htime)]
  · intro fuel ctx w crop thr heff htime
    rw [evalSucc, heff]
    simp only []
    rw [if_neg (fun h0 => htime ((windowDays_eq_zero_iff w).mp h0))]
    rfl
  · intro fuel ctx w crop htime
    induction fuel with
    | zero => simp [evaluateCropSuitability]
    | succ n ih =>
      rw [evalSucc]
      cases heff : getEffectiveThresholds ctx.custom crop (resolveZoneDistrict ctx).1
          (resolveZoneDistrict ctx).2 with
      | none => exact ih
      | some thr =>
        simp only []
        rw [if_neg (fun h0 => htime ((windowDays_eq_zero_iff w).mp h0))]
        simp

/-- Counterexample for C3 as stated: for a crop with no thresholds in
any tier, the evaluation of an empty forecast window aborts with the
stack overflow of the self-referential fallback, not with the
insufficient-data error the claim requires. -/
theorem C3_counterexample :
    evaluateCropSuitability 3 genericCtx wEmptyTime "barley" = .error .stackOverflow
    ∧ evaluateCropSuitability 3 genericCtx wEmptyTime "barley" ≠
      .error .insufficientData := by
  exact ⟨by decide, by decide⟩

/-- Witness for C3: with generic wheat thresholds resolving, the empty
payload throws insufficient data, a five-day payload returns a result,
and the insufficient-data error is absent for the five-day payload. -/
theorem C3_insufficient_data_witness :
    evaluateCropSuitability 1 genericCtx wEmptyTime "wheat" = .error .insufficientData
    ∧ evalReturns (evaluateCropSuitability 1 genericCtx wSuit "wheat") = true
    ∧ evaluateCropSuitability 1 genericCtx wSuit "wheat" ≠ .error .insufficientData := by
  refine ⟨?_, ?_, ?_⟩
  · exact C3_insufficient_data.1 0 genericCtx wEmptyTime "wheat" ⟨15, 25, 5, 15, 5, 0⟩
      (by decide) (by decide)
  · exact C3_insufficient_data.2.1 0 genericCtx wSuit "wheat" ⟨15, 25, 5, 15, 5, 0⟩
      (by decide) (by decide)
  · exact C3_insufficient_data.2.2 1 genericCtx wSuit "wheat" (by decide)

/-- No reason fires when the averages lie strictly inside the bounds,
the computed soil average (if any) meets the minimum, and the rainfall
meets the minimum. -/
lemma checkReasons_eq_nil (thr : ThresholdSet) (avgMax avgMin totalRain : ℚ)
    (avgSoil : Option ℚ) (days : ℕ)
    (hmax1 : thr.idealMaxLo < avgMax) (hmax2 : avgMax < thr.idealMaxHi)
    (hmin1 : thr.idealMinLo < avgMin) (hmin2 : avgMin < thr.idealMinHi)
    (hsoil : ∀ s, avgSoil = some s → thr.minSoilTemp ≤ s)
    (hrain : thr.minTotalRain5d ≤ totalRain) :
    checkReasons thr avgMax avgMin totalRain avgSoil days = [] := by
  unfold checkReasons
  rw [if_neg (lt_asymm hmax2), if_neg (lt_asymm hmax1),
    if_neg (lt_asymm hmin2), if_neg (lt_asymm hmin1)]
  simp only [List.nil_append]
  rw [List.append_eq_nil]
  constructor
  · split
    · cases avgSoil with
      | none => rfl
      | some s => exact if_neg (not_lt.mpr (hsoil s rfl))
    · rfl
  · exact if_neg (fun hc => absurd hc.2 (not_lt.mpr hrain))

/-- C4: for a crop with a generic ThresholdSet, a forecast whose window
averages lie strictly inside the idealMax and idealMin intervals, whose
soil average (when computed) reaches minSoilTemp, and whose rainfall
total reaches minTotalRain5d, evaluates to Suitable with no reasons
(under the context where only the generic tier can fire). -/
theorem C4_suitable_inside_bounds (fuel : ℕ) (crop : String) (thr : ThresholdSet)
    (w : WeatherData)
    (hthr : getCropThresholds crop = some thr)
    (htime : w.daily.time ≠ [])
    (hmax1 : thr.idealMaxLo < avgMaxOf w) (hmax2 : avgMaxOf w < thr.idealMaxHi)
    (hmin1 : thr.idealMinLo < avgMinOf w) (hmin2 : avgMinOf w < thr.idealMinHi)
    (hsoil : ∀ s, avgSoilOf w = some s → thr.minSoilTemp ≤ s)
    (hrain : thr.minTotalRain5d ≤ totalRainOf w) :
    evaluateCropSuitability (fuel + 1) genericCtx w crop =
      .ok ⟨"Suitable", [], metricsOf w, some "auto", some false⟩ := by
  have heff : getEffectiveThresholds genericCtx.custom crop
      (resolveZoneDistrict genericCtx).1 (resolveZoneDistrict genericCtx).2 = some thr := by
    show getEffectiveThresholds [] crop "auto" none = some thr
    rw [show getEffectiveThresholds [] crop "auto" none = getCropThresholds crop from rfl]
    exact hthr
  rw [evalSucc, heff]
  simp only []
  rw [if_neg (fun h0 => htime ((windowDays_eq_zero_iff w).mp h0))]
  rw [checkReasons_eq_nil thr (avgMaxOf w) (avgMinOf w) (totalRainOf w) (avgSoilOf w)
    (windowDays w) hmax1 hmax2 hmin1 hmin2 hsoil hrain]
  rfl

/-- Witness for C4: the second end-to-end scenario of the spec (wheat
with averages 19.2 and 8.4, zero rain against a zero rain minimum, no
soil data) yields Suitable with an empty reasons list. -/
theorem C4_suitable_inside_bounds_witness :
    evaluateCropSuitability 1 genericCtx wSuit "wheat" =
      .ok ⟨"Suitable", [], metricsOf wSuit, some "auto", some false⟩ := by
  refine C4_suitable_inside_bounds 0 "wheat" ⟨15, 25, 5, 15, 5, 0⟩ wSuit (by decide)
    (by decide) (by decide) (by decide) (by decide) (by decide) ?_ (by decide)
  intro s hs
  rw [show avgSoilOf wSuit = none from by decide] at hs
  cases hs

/-- C5: for a crop with no thresholds in any tier (barley), the
evaluator does not run the crop-agnostic generic check: the fallback
branch calls the patched binding itself, so the evaluation of a
non-empty five-day forecast recurses until the stack is exhausted, at
every stack depth. -/
theorem C5_no_threshold_crop_stack_overflow :
    getCropThresholds "barley" = none
    ∧ getEffectiveThresholds [] "barley" "auto" none = none
    ∧ ∀ fuel, evaluateCropSuitability fuel genericCtx wSuit "barley" =
        .error .stackOverflow := by
  exact ⟨by decide, by decide,
    fun fuel => eval_noThresholds genericCtx wSuit "barley" (by decide) fuel⟩

set_option maxRecDepth 100000 in
/-- Counterexample for C6 as stated: the input D.G. Khan normalises to
d g khan, which matches no alias key and no district key, so both the
district map and the name detector resolve it to null, not Punjab. -/
theorem C6_counterexample :
    detectZoneFromName "D.G. Khan" = none
    ∧ getZoneFromDistrictMap "D.G. Khan" = none := by
  exact ⟨by decide, by decide⟩

set_option maxRecDepth 100000 in
/-- C6 (amended): dg khan and Dera Ghazi Khan resolve to Punjab through
the alias and district tables, and re-resolving the resolved name
Punjab yields Punjab again; D.G. Khan alone resolves to null. -/
theorem C6_zone_resolution :
    getZoneFromDistrictMap "dg khan" = some "Punjab"
    ∧ getZoneFromDistrictMap "Dera Ghazi Khan" = some "Punjab"
    ∧ detectZoneFromName "dg khan" = some "Punjab"
    ∧ detectZoneFromName "Dera Ghazi Khan" = some "Punjab"
    ∧ detectZoneFromName "Punjab" = some "Punjab" := by
  exact ⟨by decide, by decide, by decide, by decide, by decide⟩

/-- C7: detectZoneFromCoords is total and never null: it always yields
one of the five zone names, the rectangles are tested in the fixed
order Punjab, Sindh, KPK, Balochistan, Gilgit, and when no rectangle
(and not the high-latitude rule) applies it yields the hard-coded
default Punjab. -/
theorem C7_coords_total_default (lat lon : ℚ) :
    detectZoneFromCoords lat lon ∈
      (["Punjab", "Sindh", "KPK", "Balochistan", "Gilgit"] : List String)
    ∧ (lat ≥ 27.5 ∧ lat ≤ 33.5 ∧ lon ≥ 69.5 ∧ lon ≤ 75.5 →
        detectZoneFromCoords lat lon = "Punjab")
    ∧ (¬(lat ≥ 27.5 ∧ lat ≤ 33.5 ∧ lon ≥ 69.5 ∧ lon ≤ 75.5) →
        (lat ≥ 23.5 ∧ lat ≤ 28.0 ∧ lon ≥ 67.0 ∧ lon ≤ 71.5) →
        detectZoneFromCoords lat lon = "Sindh")
    ∧ (¬(lat ≥ 27.5 ∧ lat ≤ 33.5 ∧ lon ≥ 69.5 ∧ lon ≤ 75.5) →
        ¬(lat ≥ 23.5 ∧ lat ≤ 28.0 ∧ lon ≥ 67.0 ∧ lon ≤ 71.5) →
        (lat ≥ 31.0 ∧ lat ≤ 36.5 ∧ lon ≥ 69.0 ∧ lon ≤ 74.5) →
        detectZoneFromCoords lat lon = "KPK")
    ∧ (¬(lat ≥ 27.5 ∧ lat ≤ 33.5 ∧ lon ≥ 69.5 ∧ lon ≤ 75.5) →
        ¬(lat ≥ 23.5 ∧ lat ≤ 28.0 ∧ lon ≥ 67.0 ∧ lon ≤ 71.5) →
        ¬(lat ≥ 31.0 ∧ lat ≤ 36.5 ∧ lon ≥ 69.0 ∧ lon ≤ 74.5) →
        (lat ≥ 24.0 ∧ lat ≤ 30.5 ∧ lon ≥ 61.0 ∧ lon ≤ 70.5) →
        detectZoneFromCoords lat lon = "Balochistan")
    ∧ (¬(lat ≥ 27.5 ∧ lat ≤ 33.5 ∧ lon ≥ 69.5 ∧ lon ≤ 75.5) →
        ¬(lat ≥ 23.5 ∧ lat ≤ 28.0 ∧ lon ≥ 67.0 ∧ lon ≤ 71.5) →
        ¬(lat ≥ 31.0 ∧ lat ≤ 36.5 ∧ lon ≥ 69.0 ∧ lon ≤ 74.5) →
        ¬(lat ≥ 24.0 ∧ lat ≤ 30.5 ∧ lon ≥ 61.0 ∧ lon ≤ 70.5) →
        lat > 35 → detectZoneFromCoords lat lon = "Gilgit")
    ∧ (¬(lat ≥ 27.5 ∧ lat ≤ 33.5 ∧ lon ≥ 69.5 ∧ lon ≤ 75.5) →
        ¬(lat ≥ 23.5 ∧ lat ≤ 28.0 ∧ lon ≥ 67.0 ∧ lon ≤ 71.5) →
        ¬(lat ≥ 31.0 ∧ lat ≤ 36.5 ∧ lon ≥ 69.0 ∧ lon ≤ 74.5) →
        ¬(lat ≥ 24.0 ∧ lat ≤ 30.5 ∧ lon ≥ 61.0 ∧ lon ≤ 70.5) →
        ¬(lat > 35) → detectZoneFromCoords lat lon = "Punjab") := by
  refine ⟨?_, ?_, ?_, ?_, ?_, ?_, ?_⟩
  · unfold detectZoneFromCoords
    split_ifs <;> simp
  · intro h1
    unfold detectZoneFromCoords
    rw [if_pos h1]
  · intro h1 h2
    unfold detectZoneFromCoords
    rw [if_neg h1, if_pos h2]
  · intro h1 h2 h3
    unfold detectZoneFromCoords
    rw [if_neg h1, if_neg h2, if_pos h3]
  · intro h1 h2 h3 h4
    unfold detectZoneFromCoords
    rw [if_neg h1, if_neg h2, if_neg h3, if_pos h4]
  · intro h1 h2 h3 h4 h5
    unfold detectZoneFromCoords
    rw [if_neg h1, if_neg h2, if_neg h3, if_neg h4, if_pos h5]
  · intro h1 h2 h3 h4 h5
    unfold detectZoneFromCoords
    rw [if_neg h1, if_neg h2, if_neg h3, if_neg h4, if_neg h5]

/-- Witness for C7: the origin lies in no rectangle and below latitude
35, so the hard-coded default Punjab is returned. -/
theorem C7_coords_total_default_witness : detectZoneFromCoords 0 0 = "Punjab" :=
  (C7_coords_total_default 0 0).2.2.2.2.2.2 (by decide) (by decide) (by decide)
    (by decide) (by decide)

/-- C8: the proxy endpoints validate query parameters before the
upstream call: geocode answers 400 with its fixed message whenever the
name parameter is missing, weather answers 400 whenever latitude or
longitude is missing, and both answer 500 with a generic message
whenever the upstream call fails. -/
theorem C8_proxy_validation :
    (∀ upstream, geocodeHandler none upstream =
      ⟨400, "Missing `name` query parameter"⟩)
    ∧ (∀ lon upstream, weatherHandler none lon upstream =
      ⟨400, "Missing latitude or longitude"⟩)
    ∧ (∀ lat upstream, weatherHandler lat none upstream =
      ⟨400, "Missing latitude or longitude"⟩)
    ∧ (∀ (name err : String), name ≠ "" →
      geocodeHandler (some name) (.error err) = ⟨500, "Geocoding failed"⟩)
    ∧ (∀ (la lo err : String), la ≠ "" → lo ≠ "" →
      weatherHandler (some la) (some lo) (.error err) =
        ⟨500, "Weather fetch failed"⟩) := by
  refine ⟨fun upstream => rfl, fun lon upstream => rfl, ?_, ?_, ?_⟩
  · intro lat upstream
    cases lat <;> rfl
  · intro name err h
    simp [geocodeHandler, h]
  · intro la lo err h1 h2
    simp [weatherHandler, h1, h2]

/-- Witness for C8 at concrete requests. -/
theorem C8_proxy_validation_witness :
    geocodeHandler none (.ok "resp") = ⟨400, "Missing `name` query parameter"⟩
    ∧ weatherHandler none (some "74.3") (.ok "resp") =
      ⟨400, "Missing latitude or longitude"⟩
    ∧ weatherHandler (some "31.5") none (.ok "resp") =
      ⟨400, "Missing latitude or longitude"⟩
    ∧ geocodeHandler (some "Lahore") (.error "boom") = ⟨500, "Geocoding failed"⟩
    ∧ weatherHandler (some "31.5") (some "74.3") (.error "boom") =
      ⟨500, "Weather fetch failed"⟩ :=
  ⟨C8_proxy_validation.1 _, C8_proxy_validation.2.1 _ _, C8_proxy_validation.2.2.1 _ _,
   C8_proxy_validation.2.2.2.1 "Lahore" "boom" (by decide),
   C8_proxy_validation.2.2.2.2 "31.5" "74.3" "boom" (by decide) (by decide)⟩

/-- Indexing the empty array always yields the 0 substitute. -/
lemma jsIdx_nil (i : ℕ) : jsIdx [] i = 0 := by
  cases i <;> rfl

/-- Summing a window over the empty array yields 0. -/
lemma sumWindow_nil (days : ℕ) : sumWindow [] days = 0 := by
  unfold sumWindow
  have h : ∀ (L : List ℕ) (acc : ℚ),
      L.foldl (fun a i => a + jsIdx [] i) acc = acc := by
    intro L
    induction L with
    | nil => intro acc; rfl
    | cons x xs ih => intro acc; rw [List.foldl_cons, jsIdx_nil, add_zero]; exact ih acc
  exact h (List.range days) 0

/-- C9: the window is sized from the time array alone and every
missing, out-of-range, or null entry of the temperature and rain arrays
is read as 0: with a non-empty time array and empty temperature arrays
the evaluation returns a result whose average temperatures are 0
(rather than raising an error), a null entry reads as 0, and an index
beyond the array length reads as 0. -/
theorem C9_window_zero_substitution :
    (∀ (fuel : ℕ) (ctx : EvalCtx) (w : WeatherData) (crop : String) (thr : ThresholdSet),
        getEffectiveThresholds ctx.custom crop (resolveZoneDistrict ctx).1
          (resolveZoneDistrict ctx).2 = some thr →
        w.daily.time ≠ [] →
        w.daily.temperature_2m_max = [] →
        w.daily.temperature_2m_min = [] →
        evalReturns (evaluateCropSuitability (fuel + 1) ctx w crop) = true
        ∧ evalMetrics (evaluateCropSuitability (fuel + 1) ctx w crop) =
          some (metricsOf w)
        ∧ avgMaxOf w = 0 ∧ avgMinOf w = 0)
    ∧ (∀ (l : List (Option ℚ)) (i : ℕ), l.get? i = some none → jsIdx l i = 0)
    ∧ (∀ (l : List (Option ℚ)) (i : ℕ), l.length ≤ i → jsIdx l i = 0) := by
  refine ⟨?_, ?_, ?_⟩
  · intro fuel ctx w crop thr heff htime hmax hmin
    have hca : avgMaxOf w = 0 := by
      rw [avgMaxOf, hmax, sumWindow_nil, zero_div]
    have hcb : avgMinOf w = 0 := by
      rw [avgMinOf, hmin, sumWindow_nil, zero_div]
    refine ⟨?_, ?_, hca, hcb⟩ <;>
      · rw [evalSucc, heff]
        simp only []
        rw [if_neg (fun h0 => htime ((windowDays_eq_zero_iff w).mp h0))]
        rfl
  · intro l i h
    rw [jsIdx, h]
    rfl
  · intro l i h
    rw [jsIdx, List.get?_eq_none.mpr h]
    rfl

/-- Witness for C9: five timestamps with empty temperature arrays give
a returned result with zero average temperatures; a null entry and an
out-of-range index read as 0. -/
theorem C9_window_zero_substitution_witness :
    evalReturns (evaluateCropSuitability 1 genericCtx wTimeOnly "wheat") = true
    ∧ evalMetrics (evaluateCropSuitability 1 genericCtx wTimeOnly "wheat") =
      some (metricsOf wTimeOnly)
    ∧ avgMaxOf wTimeOnly = 0 ∧ avgMinOf wTimeOnly = 0
    ∧ jsIdx [some 1, none] 1 = 0 ∧ jsIdx [some 1] 5 = 0 := by
  have h := C9_window_zero_substitution.1 0 genericCtx wTimeOnly "wheat"
    ⟨15, 25, 5, 15, 5, 0⟩ (by decide) (by decide) (by decide) (by decide)
  exact ⟨h.1, h.2.1, h.2.2.1, h.2.2.2,
    C9_window_zero_substitution.2.1 [some 1, none] 1 (by decide),
    C9_window_zero_substitution.2.2 [some 1] 5 (by decide)⟩

/-- With a zero minTotalRain5d the rain guard is falsy, so no rainfall
reason can appear among the accumulated reasons. -/
lemma rainLow_not_mem_checkReasons (thr : ThresholdSet)
    (h : thr.minTotalRain5d = 0) (avgMax avgMin totalRain : ℚ)
    (avgSoil : Option ℚ) (days : ℕ) (t : ℚ) (d : ℕ) :
    Reason.rainLow t d ∉ checkReasons thr avgMax avgMin totalRain avgSoil days := by
  intro hmem
  simp only [checkReasons, List.mem_append] at hmem
  rcases hmem with ((((h1 | h2) | h3) | h4) | h5) | h6
  · split at h1 <;> simp_all
  · split at h2 <;> simp_all
  · split at h3 <;> simp_all
  · split at h4 <;> simp_all
  · split at h5
    · split at h5 <;> simp_all
    · simp_all
  · split at h6
    · next hc => exact hc.1 h
    · simp_all

/-- With a zero minSoilTemp the soil guard is falsy, so no soil reason
can appear among the accumulated reasons. -/
lemma soilLow_not_mem_checkReasons (thr : ThresholdSet)
    (h : thr.minSoilTemp = 0) (avgMax avgMin totalRain : ℚ)
    (avgSoil : Option ℚ) (days : ℕ) (s m : ℚ) :
    Reason.soilLow s m ∉ checkReasons thr avgMax avgMin totalRain avgSoil days := by
  intro hmem
  simp only [checkReasons, List.mem_append] at hmem
  rcases hmem with ((((h1 | h2) | h3) | h4) | h5) | h6
  · split at h1 <;> simp_all
  · split at h2 <;> simp_all
  · split at h3 <;> simp_all
  · split at h4 <;> simp_all
  · split at h5
    · next hc => exact hc h
    · simp_all
  · split at h6 <;> simp_all

/-- C10: with an effective ThresholdSet whose minTotalRain5d is 0 the
evaluator never appends a rainfall-insufficiency reason, and with
minSoilTemp 0 it never applies the soil check, both guards being the
truthiness of the threshold value; the generic wheat and cotton entries
indeed carry minTotalRain5d 0. -/
theorem C10_zero_guards_skip_checks :
    (∀ (fuel : ℕ) (ctx : EvalCtx) (w : WeatherData) (crop : String)
        (thr : ThresholdSet) (r : SuitabilityResult),
        getEffectiveThresholds ctx.custom crop (resolveZoneDistrict ctx).1
          (resolveZoneDistrict ctx).2 = some thr →
        evaluateCropSuitability (fuel + 1) ctx w crop = .ok r →
        (thr.minTotalRain5d = 0 → ∀ (t : ℚ) (d : ℕ), Reason.rainLow t d ∉ r.reasons)
        ∧ (thr.minSoilTemp = 0 → ∀ (s m : ℚ), Reason.soilLow s m ∉ r.reasons))
    ∧ (getCropThresholds "wheat").map ThresholdSet.minTotalRain5d = some 0
    ∧ (getCropThresholds "cotton").map ThresholdSet.minTotalRain5d = some 0 := by
  refine ⟨?_, by decide, by decide⟩
  intro fuel ctx w crop thr r heff hok
  rw [evalSucc, heff] at hok
  simp only [] at hok
  split at hok
  · exact absurd hok (by simp)
  · injection hok with h2
    subst h2
    constructor
    · intro h0 t d
      exact rainLow_not_mem_checkReasons thr h0 (avgMaxOf w) (avgMinOf w)
        (totalRainOf w) (avgSoilOf w) (windowDays w) t d
    · intro h0 s m
      exact soilLow_not_mem_checkReasons thr h0 (avgMaxOf w) (avgMinOf w)
        (totalRainOf w) (avgSoilOf w) (windowDays w) s m

/-- Witness for C10: a zero-guard custom override for wheat on the hot
payload returns a result containing neither a rainfall nor a soil
reason. -/
theorem C10_zero_guards_skip_checks_witness :
    Reason.rainLow 0 5 ∉ rHotCustom.reasons
    ∧ Reason.soilLow 0 5 ∉ rHotCustom.reasons := by
  have h := C10_zero_guards_skip_checks.1 0 zeroCtx wHot "wheat" ⟨15, 25, 5, 15, 0, 0⟩
    rHotCustom (by decide) (by decide)
  exact ⟨h.1 (by decide) 0 5, h.2 (by decide) 0 5⟩
